import Mathlib

/-!
Verification of the resume-analyzer backend's session lifecycle and
event-delivery subsystem.

The embedding covers:
* the Session data model and the Session Store (`sessionManager`);
* the Connection Registry (`sseManager`);
* the Event Broadcaster (`services/eventBroadcaster`, from source);
* the SSE routes (`routes/sse.js`, from source): the retry endpoint and the
  subscription endpoint.

JavaScript dynamic values appearing in payloads are embedded as the inductive
`JVal` (JSON-like values; JS `undefined` and `null` are both embedded as
`JVal.null`).  Timestamps (`Date.now()`, `new Date()`) are embedded as `Nat`
milliseconds; each operation that reads the clock takes an explicit `now`
argument.  A JS value that may be `null`/absent is embedded as an `Option`.
-/

namespace ResumeAnalyzer

/-- JSON-like dynamic value (JS objects/arrays/primitives).  JS `undefined`
and `null` are both mapped to `JVal.null` — both are falsy and both serialize
to an absent/null field, and no code in scope distinguishes them. -/
inductive JVal where
  | null : JVal
  | bool : Bool → JVal
  | num : Int → JVal
  | str : String → JVal
  | arr : List JVal → JVal
  | obj : List (String × JVal) → JVal

/-- Property lookup on an object: `v[k]`, returning `null` for a missing key
or a non-object receiver (JS would yield `undefined`). -/
def jget (v : JVal) (k : String) : JVal :=
  match v with
  | .obj fields => jfind fields k
  | _ => .null
where
  jfind : List (String × JVal) → String → JVal
    | [], _ => .null
    | (k', v') :: rest, k => if k' = k then v' else jfind rest k

/-- JS truthiness of a `JVal`. -/
def jtruthy : JVal → Bool
  | .null => false
  | .bool b => b
  | .num n => n != 0
  | .str s => s != ""
  | .arr _ => true
  | .obj _ => true

/-- JS `a || b` on dynamic values. -/
def jsOr (a b : JVal) : JVal := if jtruthy a then a else b

/-- JS `a || b` where `a` is a possibly-absent string and the result is used
as a string (absent and `""` are both falsy). -/
def jsStrOr (a : Option String) (b : String) : String :=
  match a with
  | some s => if s = "" then b else s
  | none => b

/-- JS `a || 0`-style defaulting on a possibly-absent number
(`0` itself is falsy, so `some 0` also falls through to the default). -/
def jsNumOr (a : Option Nat) (b : Nat) : Nat :=
  match a with
  | some n => if n = 0 then b else n
  | none => b

/-- Embeds `Date#toISOString`, abstracted: an injective rendering of the clock. -/
def dateToISOString (now : Nat) : String := toString now

/-- One resume-analysis session (spec §3 plus the fields the broadcaster and
routes attach).  Fields that are absent until a lifecycle event fires are
`Option`s defaulting to `none`. -/
structure Session where
  sessionId : String
  status : String
  createdAt : Nat
  updatedAt : Nat
  expiresAt : Option Nat
  retryCount : Nat := 0
  fileInfo : Option JVal := none
  uploadedAt : Option Nat := none
  extractedText : Option JVal := none
  extractionInfo : Option JVal := none
  streamingContent : Option String := none
  lastStreamUpdate : Option Nat := none
  feedback : Option JVal := none
  completedAt : Option Nat := none
  lastError : Option String := none
  errorCode : Option String := none

/-- The Session Store's backing map (`this.sessions`, a `Map` keyed by
session id), embedded as an association list in insertion order. -/
abbrev Store := List (String × Session)

/-- Embeds `Map#get`-style lookup in the backing map (physical presence only —
no expiry logic here). -/
def storeFind : Store → String → Option Session
  | [], _ => none
  | (k, s) :: rest, id => if k = id then some s else storeFind rest id

/-- Embeds `Map#set`: replace the binding for `id` if present, else append. -/
def storeSet : Store → String → Session → Store
  | [], id, s => [(id, s)]
  | (k, t) :: rest, id, s =>
      if k = id then (k, s) :: rest else (k, t) :: storeSet rest id s

/-- Default session time-to-live used at creation (`now + defaultTTL`;
the spec fixes no numeric value, 30 minutes in milliseconds is used here). -/
def defaultTTL : Nat := 30 * 60 * 1000

/-- Modelled from the spec: `sessionManager.getSession` (sessionManager.js is
not under src/).  "Returns absent if the id is not a non-empty string, the
session does not exist, `expiresAt` is missing, or `now > expiresAt` (lazy
expiry — no proactive deletion on read)."  The returned session is a
defensive copy; in this embedding values are immutable so the copy is the
value itself.  A `null`/non-string id is embedded as `none`. -/
def getSession (store : Store) (sessionId : Option String) (now : Nat) :
    Option Session :=
  match sessionId with
  | none => none
  | some id =>
      if id = "" then none
      else
        match storeFind store id with
        | none => none
        | some s =>
            match s.expiresAt with
            | none => none
            | some e => if now > e then none else some s

/-- Modelled from the spec: `sessionManager.updateSession`.  "Merges fields
(sessionId field is immutable and cannot be overwritten), bumps `updatedAt`.
Fails (returns false) if the id is invalid or absent — it does not throw."
A session past `expiresAt` is "logically absent" (spec §3), so updating it
fails too.  The merged partial fields are embedded as a function on the
session record. -/
def updateSession (store : Store) (sessionId : Option String)
    (patch : Session → Session) (now : Nat) : Store × Bool :=
  match sessionId with
  | none => (store, false)
  | some id =>
      match getSession store (some id) now with
      | none => (store, false)
      | some s =>
          let s' := patch s
          (storeSet store id
            { s' with sessionId := s.sessionId, updatedAt := now }, true)

/-- Modelled from the spec: `sessionManager.updateStatus`, a "convenience
wrapper over `update`". -/
def updateStatus (store : Store) (sessionId : Option String)
    (newStatus : String) (now : Nat) : Store × Bool :=
  updateSession store sessionId (fun s => { s with status := newStatus }) now

/-- Modelled from the spec: `sessionManager.sessionExists`. -/
def sessionExists (store : Store) (sessionId : Option String) (now : Nat) :
    Bool :=
  (getSession store sessionId now).isSome

/-- Modelled from the spec: `sessionManager.extendSession` "pushes
`expiresAt` forward"; the extension defaults to the session TTL. -/
def extendSession (store : Store) (sessionId : Option String)
    (extraMillis : Option Nat) (now : Nat) : Store × Bool :=
  updateSession store sessionId
    (fun s => { s with expiresAt := some (now + extraMillis.getD defaultTTL) })
    now

/-- Modelled from the spec: `sessionManager.createSession`.  "Generates a
fresh unique id, sets `status=created`, `retryCount=0`,
`createdAt=updatedAt=now`, `expiresAt = now + defaultTTL`, merges
`initialData` (except it must never let caller-supplied data override the
generated `sessionId`). Returns the id."  The id comes from an external
randomness source, embedded as the explicit argument `freshId`; `initialData`
is embedded as a merge function on the freshly initialized record. -/
def createSession (store : Store) (initialData : Session → Session)
    (freshId : String) (now : Nat) : Store × String :=
  let base : Session :=
    { sessionId := freshId, status := "created", createdAt := now,
      updatedAt := now, expiresAt := some (now + defaultTTL), retryCount := 0 }
  let s := initialData base
  (storeSet store freshId { s with sessionId := freshId }, freshId)

/-! ## Connection Registry (`sseManager`) -/

/-- One live subscriber channel (an HTTP response object used as an SSE
stream).  The transport outcomes are abstracted as two flags: whether the
initial handshake (status line, headers, flush) succeeds, and whether a
write to the channel succeeds.  `cid` identifies the channel. -/
structure Channel where
  cid : Nat
  handshakeOk : Bool := true
  writeOk : Bool := true

/-- An SSE wire message: `event: <event>\ndata: <JSON payload>\n\n`.
The framing/serialization is injective in `(event, data)`, so the message is
embedded as that pair. -/
structure SSEMsg where
  event : String
  data : JVal

/-- The registry's backing map (`this.connections`, session id ↦ set of open
channels), embedded as an association list; each channel set is a list in
insertion order. -/
abbrev Registry := List (String × List Channel)

/-- Lookup of a session's channel set. -/
def regFind : Registry → String → Option (List Channel)
  | [], _ => none
  | (k, cs) :: rest, id => if k = id then some cs else regFind rest id

/-- Replace (or create) a session's channel set. -/
def regSet : Registry → String → List Channel → Registry
  | [], id, cs => [(id, cs)]
  | (k, ds) :: rest, id, cs =>
      if k = id then (k, cs) :: rest else (k, ds) :: regSet rest id cs

/-- Drop a session's key from the registry. -/
def regRemove : Registry → String → Registry
  | [], _ => []
  | (k, ds) :: rest, id =>
      if k = id then rest else (k, ds) :: regRemove rest id

/-- Modelled from the spec: `sseManager.createConnection` (sseManager.js is
not under src/).  "Registers `channel` under `sessionId`'s connection set;
immediately performs the channel-specific handshake (status 200, framing
headers, flush). Returns false if handshake fails (e.g., channel already
closed)." -/
def createConnection (reg : Registry) (sessionId : String) (ch : Channel) :
    Registry × Bool :=
  if ch.handshakeOk then
    let chans := (regFind reg sessionId).getD []
    (regSet reg sessionId (chans ++ [ch]), true)
  else (reg, false)

/-- Modelled from the spec: `sseManager.removeConnection`.  "Removes one
channel from the set; if the set becomes empty, the session key is dropped
from the registry." -/
def removeConnection (reg : Registry) (sessionId : String) (ch : Channel) :
    Registry :=
  match regFind reg sessionId with
  | none => reg
  | some chans =>
      let remaining := chans.filter (fun c => c.cid ≠ ch.cid)
      if remaining.isEmpty then regRemove reg sessionId
      else regSet reg sessionId remaining

/-- Delivery loop of a broadcast: attempt the write on each registered
channel in order.  Returns the successful deliveries `(cid, message)` and the
surviving channels; a channel whose write fails is dropped (write failure is
treated as an implicit disconnect) while delivery to the remaining channels
continues. -/
def deliverAll (chans : List Channel) (msg : SSEMsg) :
    List (Nat × SSEMsg) × List Channel :=
  match chans with
  | [] => ([], [])
  | c :: rest =>
      let (ds, survivors) := deliverAll rest msg
      if c.writeOk then ((c.cid, msg) :: ds, c :: survivors)
      else (ds, survivors)

/-- Modelled from the spec: `sseManager.broadcastToSession`.  "Serializes
`eventName`+`payload` into the channel's wire format and writes it to every
currently-registered channel for that session. A write failure on one channel
must not prevent delivery to the others, and must trigger that channel's
removal."  The message is formatted once and shared by all writes.  If every
channel failed, the now-empty set's key is dropped (as `removeConnection`
does). -/
def broadcastToSession (reg : Registry) (sessionId : String)
    (eventName : String) (payload : JVal) :
    Registry × List (Nat × SSEMsg) :=
  match regFind reg sessionId with
  | none => (reg, [])
  | some chans =>
      let msg : SSEMsg := ⟨eventName, payload⟩
      let (ds, survivors) := deliverAll chans msg
      if survivors.isEmpty then (regRemove reg sessionId, ds)
      else (regSet reg sessionId survivors, ds)

/-- Modelled from the spec: `sseManager.getConnectionCount`. -/
def getConnectionCount (reg : Registry) (sessionId : String) : Nat :=
  ((regFind reg sessionId).getD []).length

/-! ## Event Broadcaster (`services/eventBroadcaster`, embedded from source)

Each `broadcastX` method updates the Session Store and then calls
`sseManager.broadcastToSession(sessionId, eventType, eventData)`.  The store
effect is embedded directly; the broadcast call is embedded as an emitted
`Broadcast` record (the routes compose it with `broadcastToSession` where the
registry matters).  Each method takes the clock as `now`. -/

/-- One `sseManager.broadcastToSession` call made by the broadcaster:
the target session id and the named event with its payload. -/
structure Broadcast where
  sessionId : Option String
  event : String
  data : JVal

/-- The `broadcastError` method's `error` argument: an `Error` object (message plus
optional `code` property) or a plain string. -/
structure JsError where
  message : String
  code : Option String := none

/-- The `broadcastError` method's `options` argument. -/
structure ErrOptions where
  code : Option String := none
  retryable : Option Bool := none
  stage : Option String := none
  retryCount : Option Nat := none

/-- Embeds `EventBroadcaster.broadcastUploadStarted`. -/
def broadcastUploadStarted (store : Store) (sessionId : Option String)
    (fileInfo : JVal) (now : Nat) : Store × List Broadcast :=
  let eventData : JVal := .obj
    [("status", .str "uploading"),
     ("message", .str "File upload started"),
     ("fileInfo", .obj
       [("name", jsOr (jget fileInfo "originalName") (jget fileInfo "name")),
        ("size", jget fileInfo "size"),
        ("type", jsOr (jget fileInfo "mimetype") (jget fileInfo "type"))])]
  let store := (updateStatus store sessionId "uploading" now).1
  let store :=
    (updateSession store sessionId (fun s => { s with fileInfo := some fileInfo }) now).1
  (store, [⟨sessionId, "upload.started", eventData⟩])

/-- Embeds `EventBroadcaster.broadcastUploadCompleted`. -/
def broadcastUploadCompleted (store : Store) (sessionId : Option String)
    (fileInfo : JVal) (now : Nat) : Store × List Broadcast :=
  let eventData : JVal := .obj
    [("status", .str "uploaded"),
     ("message", .str "File uploaded successfully"),
     ("fileInfo", .obj
       [("name", jsOr (jget fileInfo "originalName") (jget fileInfo "name")),
        ("size", jget fileInfo "size"),
        ("type", jsOr (jget fileInfo "mimetype") (jget fileInfo "type")),
        ("uploadedAt",
          jsOr (jget fileInfo "uploadedAt") (.str (dateToISOString now)))])]
  let store := (updateStatus store sessionId "uploaded" now).1
  let store :=
    (updateSession store sessionId
      (fun s => { s with fileInfo := some fileInfo, uploadedAt := some now }) now).1
  (store, [⟨sessionId, "upload.completed", eventData⟩])

/-- Embeds `EventBroadcaster.broadcastExtractionStarted`. -/
def broadcastExtractionStarted (store : Store) (sessionId : Option String)
    (now : Nat) : Store × List Broadcast :=
  let eventData : JVal := .obj
    [("status", .str "extracting"),
     ("message", .str "Extracting text from PDF..."),
     ("stage", .str "extraction")]
  let store := (updateStatus store sessionId "extracting" now).1
  (store, [⟨sessionId, "extraction.started", eventData⟩])

/-- Embeds `EventBroadcaster.broadcastExtractionCompleted`. -/
def broadcastExtractionCompleted (store : Store) (sessionId : Option String)
    (extractionResult : JVal) (now : Nat) : Store × List Broadcast :=
  let extractionInfo : JVal := .obj
    [("textLength", jsOr (jget extractionResult "textLength") (.num 0)),
     ("pageCount", jsOr (jget extractionResult "pageCount") (.num 0)),
     ("hasText", jsOr (jget extractionResult "hasText") (.bool false))]
  let eventData : JVal := .obj
    [("status", .str "extracted"),
     ("message", .str "Text extraction completed"),
     ("stage", .str "extraction"),
     ("extractionInfo", extractionInfo)]
  let store := (updateStatus store sessionId "extracted" now).1
  let store :=
    (updateSession store sessionId
      (fun s => { s with extractedText := some (jget extractionResult "text"),
                         extractionInfo := some extractionInfo }) now).1
  (store, [⟨sessionId, "extraction.completed", eventData⟩])

/-- Embeds `EventBroadcaster.broadcastAnalysisStarted`. -/
def broadcastAnalysisStarted (store : Store) (sessionId : Option String)
    (now : Nat) : Store × List Broadcast :=
  let eventData : JVal := .obj
    [("status", .str "analyzing"),
     ("message", .str "AI analysis started..."),
     ("stage", .str "analysis")]
  let store := (updateStatus store sessionId "analyzing" now).1
  (store, [⟨sessionId, "analysis.started", eventData⟩])

/-- The payload built by `EventBroadcaster.broadcastAnalysisStreaming`:
`content` carries the chunk alone, never the accumulated buffer. -/
def streamingEventData (content : String) (metadata : JVal) : JVal :=
  .obj
    [("status", .str "streaming"),
     ("message", .str "Receiving AI feedback..."),
     ("stage", .str "analysis"),
     ("content", .str content),
     ("metadata", .obj
       [("chunkIndex", jsOr (jget metadata "chunkIndex") (.num 0)),
        ("isComplete", jsOr (jget metadata "isComplete") (.bool false)),
        ("section", jsOr (jget metadata "section") (.str "general"))])]

/-- Embeds `EventBroadcaster.broadcastAnalysisStreaming`: no status update; appends
the chunk to the session's accumulated `streamingContent` (when the session
exists) and broadcasts the chunk alone. -/
def broadcastAnalysisStreaming (store : Store) (sessionId : Option String)
    (content : String) (metadata : JVal) (now : Nat) : Store × List Broadcast :=
  let eventData := streamingEventData content metadata
  let store :=
    match getSession store sessionId now with
    | some session =>
        let currentContent := session.streamingContent.getD ""
        (updateSession store sessionId
          (fun s => { s with streamingContent := some (currentContent ++ content),
                             lastStreamUpdate := some now }) now).1
    | none => store
  (store, [⟨sessionId, "analysis.streaming", eventData⟩])

/-- Embeds `EventBroadcaster.broadcastAnalysisCompleted`. -/
def broadcastAnalysisCompleted (store : Store) (sessionId : Option String)
    (feedback : JVal) (now : Nat) : Store × List Broadcast :=
  let eventData : JVal := .obj
    [("status", .str "completed"),
     ("message", .str "AI analysis completed successfully"),
     ("stage", .str "analysis"),
     ("feedback", feedback),
     ("completedAt", .str (dateToISOString now))]
  let store := (updateStatus store sessionId "completed" now).1
  let store :=
    (updateSession store sessionId
      (fun s => { s with feedback := some feedback, completedAt := some now,
                         streamingContent := none }) now).1
  (store, [⟨sessionId, "analysis.completed", eventData⟩])

/-- Embeds `EventBroadcaster.broadcastError`.  Its `errorMessage` is
`error instanceof Error ? error.message : error`; the code is
`error.code || options.code || 'UNKNOWN_ERROR'` (a string `error` has no
`code` property); the stored `retryCount` is `options.retryCount || 0`. -/
def broadcastError (store : Store) (sessionId : Option String)
    (error : Sum JsError String) (options : ErrOptions) (now : Nat) :
    Store × List Broadcast :=
  let errorMessage := match error with | .inl e => e.message | .inr s => s
  let errCodeProp : Option String :=
    match error with | .inl e => e.code | .inr _ => none
  let errorCode := jsStrOr errCodeProp (jsStrOr options.code "UNKNOWN_ERROR")
  let eventData : JVal := .obj
    [("status", .str "error"),
     ("message", .str errorMessage),
     ("error", .obj
       [("code", .str errorCode),
        ("message", .str errorMessage),
        ("retryable", .bool (options.retryable ≠ some false)),
        ("stage", .str (jsStrOr options.stage "unknown"))]),
     ("retryCount", .num (jsNumOr options.retryCount 0))]
  let store := (updateStatus store sessionId "error" now).1
  let store :=
    (updateSession store sessionId
      (fun s => { s with lastError := some errorMessage,
                         errorCode := some errorCode,
                         retryCount := jsNumOr options.retryCount 0 }) now).1
  (store, [⟨sessionId, "error.occurred", eventData⟩])

/-- Embeds `EventBroadcaster.broadcastRetryStarted`: sets `retryCount` and status
`retrying` via a single `updateSession`, then broadcasts. -/
def broadcastRetryStarted (store : Store) (sessionId : Option String)
    (retryCount : Nat) (stage : String) (now : Nat) : Store × List Broadcast :=
  let eventData : JVal := .obj
    [("status", .str "retrying"),
     ("message", .str ("Retrying " ++ stage ++ "... (Attempt "
        ++ toString retryCount ++ ")")),
     ("retryInfo", .obj
       [("attempt", .num retryCount),
        ("stage", .str stage),
        ("maxAttempts", .num 3)])]
  let store :=
    (updateSession store sessionId
      (fun s => { s with retryCount := retryCount, status := "retrying" }) now).1
  (store, [⟨sessionId, "retry.started", eventData⟩])

/-! ## SSE routes (`routes/sse.js`, embedded from source) -/

/-- A JSON route response: HTTP status plus the structured `code` field of
the body (when the body carries one). -/
structure RouteResp where
  status : Nat
  code : Option String

/-- Embeds `POST /events/:sessionId/retry` (routes/sse.js).  Express route params
are strings; the handler's `!sessionId` guard is the empty-string check.
Returns the response, the resulting store, and the broadcasts emitted. -/
def retryRoute (store : Store) (sessionId : String) (now : Nat) :
    RouteResp × Store × List Broadcast :=
  if sessionId = "" then (⟨400, some "INVALID_SESSION_ID"⟩, store, [])
  else
    match getSession store (some sessionId) now with
    | none => (⟨404, some "SESSION_NOT_FOUND"⟩, store, [])
    | some session =>
        if session.status ≠ "error" then
          (⟨400, some "INVALID_SESSION_STATE"⟩, store, [])
        else
          let newRetryCount := session.retryCount + 1
          if newRetryCount > 3 then
            (⟨400, some "MAX_RETRIES_EXCEEDED"⟩, store, [])
          else
            let store :=
              (updateSession store (some sessionId)
                (fun s => { s with status := "retrying",
                                   retryCount := newRetryCount,
                                   lastError := none }) now).1
            let (store, bs) :=
              broadcastRetryStarted store (some sessionId) newRetryCount
                "analysis" now
            (⟨200, none⟩, store, bs)

/-- The allow-list of frontend origins in routes/sse.js. -/
def allowedOrigins : List String :=
  ["http://localhost:5173",
   "https://extraordinary-dieffenbachia-757a4c.netlify.app"]

/-- Terminal outcome of `GET /events/:sessionId`. -/
inductive SubOutcome where
  | corsRejected
  | sseErr (msg : String)
  | connected

/-- Result of `GET /events/:sessionId`: the outcome, the store and registry
afterwards, and the snapshot messages delivered to channels. -/
structure SubResult where
  outcome : SubOutcome
  store : Store
  registry : Registry
  deliveries : List (Nat × SSEMsg)

/-- Snapshot payload replayed to a subscriber of a `completed` session with
stored (truthy) feedback. -/
def completedSnapshotData (session : Session) (now : Nat) : JVal :=
  .obj
    [("status", .str "completed"),
     ("message", .str "Analysis completed successfully"),
     ("stage", .str "analysis"),
     ("feedback", session.feedback.getD .null),
     ("completedAt", .str
       (match session.completedAt with
        | some t => dateToISOString t
        | none => dateToISOString now))]

/-- Snapshot payload replayed to a subscriber of a session in any other
state: the session's current status. -/
def statusSnapshotData (session : Session) : JVal :=
  .obj
    [("status", .str session.status),
     ("message", .str ("Current status: " ++ session.status)),
     ("sessionData", .obj
       [("sessionId", .str session.sessionId),
        ("status", .str session.status),
        ("createdAt", .str (dateToISOString session.createdAt)),
        ("updatedAt", .str (dateToISOString session.updatedAt))])]

/-- Truthiness of a possibly-absent session field (`session.feedback`). -/
def optTruthy : Option JVal → Bool
  | none => false
  | some v => jtruthy v

/-- Embeds `GET /events/:sessionId` (routes/sse.js): CORS allow-list check, session
validation, connection registration, then immediate snapshot replay —
`analysis.completed` with the stored feedback if the session is `completed`
with truthy feedback, else `session.status` with the current status —
followed by `extendSession`. -/
def subscribeRoute (store : Store) (reg : Registry) (sessionId : String)
    (origin : String) (channel : Channel) (now : Nat) : SubResult :=
  if ¬ allowedOrigins.contains origin then
    ⟨.corsRejected, store, reg, []⟩
  else if sessionId = "" then
    ⟨.sseErr "Invalid session ID", store, reg, []⟩
  else
    match getSession store (some sessionId) now with
    | none => ⟨.sseErr "Session not found", store, reg, []⟩
    | some session =>
        let (reg, connected) := createConnection reg sessionId channel
        if ¬ connected then
          ⟨.sseErr "SSE connection failed", store, reg, []⟩
        else
          let (reg, ds) :=
            if session.status = "completed" && optTruthy session.feedback then
              broadcastToSession reg sessionId "analysis.completed"
                (completedSnapshotData session now)
            else
              broadcastToSession reg sessionId "session.status"
                (statusSnapshotData session)
          let store := (extendSession store (some sessionId) none now).1
          ⟨.connected, store, reg, ds⟩

/-! ## Properties under verification and concrete fixtures -/

/-- The retry-count ceiling as a checkable store predicate: every session in
the backing map has `retryCount ≤ 3`. -/
def capOK (store : Store) : Bool :=
  store.all (fun p => p.2.retryCount ≤ 3)

/-- A session in `error` state with the retry ceiling reached. -/
def demoErrSess3 : Session :=
  { sessionId := "s1", status := "error", createdAt := 0, updatedAt := 0,
    expiresAt := some 1000000, retryCount := 3, lastError := some "boom" }

/-- A store holding only `demoErrSess3`. -/
def demoStoreErr3 : Store := [("s1", demoErrSess3)]

/-- A freshly created session (status `created`, `retryCount = 0`). -/
def demoCreatedSess : Session :=
  { sessionId := "s2", status := "created", createdAt := 0, updatedAt := 0,
    expiresAt := some 1000000, retryCount := 0 }

/-- A store holding only `demoCreatedSess`. -/
def demoStoreCreated : Store := [("s2", demoCreatedSess)]

/-- A session in `error` state with two retries used so far. -/
def demoErrSess2 : Session :=
  { sessionId := "s1", status := "error", createdAt := 0, updatedAt := 0,
    expiresAt := some 1000000, retryCount := 2, lastError := some "boom" }

/-- A store holding only `demoErrSess2`. -/
def demoStoreErr2 : Store := [("s1", demoErrSess2)]

/-- A session mid-analysis with some accumulated streaming content. -/
def demoStreamingSess : Session :=
  { sessionId := "s3", status := "analyzing", createdAt := 0, updatedAt := 0,
    expiresAt := some 1000000, retryCount := 0,
    streamingContent := some "AB" }

/-- A store holding only `demoStreamingSess`. -/
def demoStoreStreaming : Store := [("s3", demoStreamingSess)]

/-- A completed session carrying stored feedback. -/
def demoCompletedSess : Session :=
  { sessionId := "s4", status := "completed", createdAt := 0, updatedAt := 0,
    expiresAt := some 1000000, retryCount := 0,
    feedback := some (.obj [("clarity", .num 8)]), completedAt := some 7 }

/-- A store holding only `demoCompletedSess`. -/
def demoStoreCompleted : Store := [("s4", demoCompletedSess)]

/-- A physically present session whose `expiresAt` lies in the past. -/
def demoExpiredSess : Session :=
  { sessionId := "s5", status := "analyzing", createdAt := 0, updatedAt := 0,
    expiresAt := some 5, retryCount := 0 }

/-- A store holding only `demoExpiredSess`. -/
def demoStoreExpired : Store := [("s5", demoExpiredSess)]

/-- Three channels, the second of which fails on write. -/
def demoChans : List Channel :=
  [⟨1, true, true⟩, ⟨2, true, false⟩, ⟨3, true, true⟩]

/-- A registry holding `demoChans` for session `"s4"`. -/
def demoRegistry : Registry := [("s4", demoChans)]

/-! ## Store lemmas -/

theorem storeFind_storeSet_self (st : Store) (k : String) (v : Session) :
    storeFind (storeSet st k v) k = some v := by
  induction st with
  | nil => simp [storeSet, storeFind]
  | cons hd tl ih =>
      obtain ⟨k', s'⟩ := hd
      by_cases h : k' = k <;> simp [storeSet, storeFind, h, ih]

theorem mem_storeSet {st : Store} {k : String} {v : Session}
    {p : String × Session} (h : p ∈ storeSet st k v) : p.2 = v ∨ p ∈ st := by
  induction st with
  | nil => simp [storeSet] at h; simp [h]
  | cons hd tl ih =>
      obtain ⟨k', s'⟩ := hd
      by_cases hk : k' = k
      · simp [storeSet, hk] at h
        rcases h with h | h
        · simp [h]
        · exact Or.inr (List.mem_cons_of_mem _ h)
      · simp [storeSet, hk] at h
        rcases h with h | h
        · exact Or.inr (by simp [h])
        · rcases ih h with h' | h'
          · exact Or.inl h'
          · exact Or.inr (List.mem_cons_of_mem _ h')

theorem getSession_some_elim {store : Store} {id : String} {now : Nat}
    {s : Session} (h : getSession store (some id) now = some s) :
    id ≠ "" ∧ storeFind store id = some s ∧
      ∃ e, s.expiresAt = some e ∧ now ≤ e := by
  by_cases hid : id = ""
  · simp [getSession, hid] at h
  · refine ⟨hid, ?_⟩
    cases hf : storeFind store id with
    | none => simp [getSession, hid, hf] at h
    | some t =>
        cases he : t.expiresAt with
        | none => simp [getSession, hid, hf, he] at h
        | some e =>
            by_cases hgt : now > e
            · simp [getSession, hid, hf, he, hgt] at h
            · simp [getSession, hid, hf, he, hgt] at h
              subst h
              exact ⟨rfl, e, he, Nat.le_of_not_lt hgt⟩

theorem getSession_some_intro {store : Store} {id : String} {now : Nat}
    {s : Session} {e : Nat} (hid : id ≠ "") (hf : storeFind store id = some s)
    (he : s.expiresAt = some e) (hle : now ≤ e) :
    getSession store (some id) now = some s := by
  simp [getSession, hid, hf, he, Nat.not_lt.mpr hle]

theorem updateSession_missing {store : Store} {sid : Option String} {now : Nat}
    (h : getSession store sid now = none) (patch : Session → Session) :
    updateSession store sid patch now = (store, false) := by
  cases sid with
  | none => rfl
  | some id => simp [updateSession, h]

theorem updateSession_live {store : Store} {id : String} {now : Nat}
    {s : Session} (h : getSession store (some id) now = some s)
    (patch : Session → Session) :
    updateSession store (some id) patch now
      = (storeSet store id
          { patch s with sessionId := s.sessionId, updatedAt := now }, true) := by
  simp [updateSession, h]

theorem getSession_after_update {store : Store} {id : String} {now : Nat}
    {s : Session} (h : getSession store (some id) now = some s)
    (patch : Session → Session) (hexp : (patch s).expiresAt = s.expiresAt) :
    getSession (updateSession store (some id) patch now).1 (some id) now
      = some { patch s with sessionId := s.sessionId, updatedAt := now } := by
  obtain ⟨hid, hf, e, he, hle⟩ := getSession_some_elim h
  rw [updateSession_live h]
  exact getSession_some_intro hid (storeFind_storeSet_self store id _)
    (by simpa [hexp] using he) hle

/-! ## Cap-preservation lemmas -/

theorem capOK_storeSet {store : Store} {k : String} {v : Session}
    (hcap : capOK store = true) (hv : v.retryCount ≤ 3) :
    capOK (storeSet store k v) = true := by
  simp only [capOK, List.all_eq_true, decide_eq_true_eq] at *
  intro p hp
  rcases mem_storeSet hp with h | h
  · rw [h]; exact hv
  · exact hcap p h

theorem capOK_updateSession {store : Store} {sid : Option String} {now : Nat}
    {patch : Session → Session} (hcap : capOK store = true)
    (hpatch : ∀ s, (patch s).retryCount ≤ 3) :
    capOK (updateSession store sid patch now).1 = true := by
  cases sid with
  | none => simpa [updateSession]
  | some id =>
      cases hg : getSession store (some id) now with
      | none => simpa [updateSession, hg]
      | some s =>
          rw [updateSession_live hg]
          exact capOK_storeSet hcap (by simpa using hpatch s)

/-! ## Registry lemmas -/

theorem regFind_regSet_self (reg : Registry) (k : String)
    (cs : List Channel) : regFind (regSet reg k cs) k = some cs := by
  induction reg with
  | nil => simp [regSet, regFind]
  | cons hd tl ih =>
      obtain ⟨k', ds⟩ := hd
      by_cases h : k' = k <;> simp [regSet, regFind, h, ih]

theorem regFind_eq_none_of_not_mem {reg : Registry} {k : String}
    (h : k ∉ reg.map Prod.fst) : regFind reg k = none := by
  induction reg with
  | nil => rfl
  | cons hd tl ih =>
      obtain ⟨k', ds⟩ := hd
      rw [List.map_cons, List.mem_cons] at h
      push_neg at h
      simp [regFind, Ne.symm h.1, ih h.2]

theorem regFind_regRemove_self {reg : Registry} {k : String}
    (hnd : (reg.map Prod.fst).Nodup) : regFind (regRemove reg k) k = none := by
  induction reg with
  | nil => rfl
  | cons hd tl ih =>
      obtain ⟨k', ds⟩ := hd
      simp at hnd
      by_cases h : k' = k
      · subst h
        simpa [regRemove] using
          regFind_eq_none_of_not_mem (by simpa using hnd.1)
      · simp [regRemove, regFind, h, ih hnd.2]

theorem deliverAll_eq (chans : List Channel) (msg : SSEMsg) :
    deliverAll chans msg
      = ((chans.filter (fun c => c.writeOk)).map (fun c => (c.cid, msg)),
         chans.filter (fun c => c.writeOk)) := by
  induction chans with
  | nil => rfl
  | cons c rest ih => cases h : c.writeOk <;> simp [deliverAll, ih, h]

theorem mem_deliveries_of_writeOk {chans : List Channel} {c : Channel}
    (hc : c ∈ chans) (hw : c.writeOk = true) (msg : SSEMsg) :
    (c.cid, msg)
      ∈ (chans.filter (fun ch => ch.writeOk)).map (fun ch => (ch.cid, msg)) :=
  List.mem_map_of_mem _ (List.mem_filter.mpr ⟨hc, hw⟩)

theorem broadcastToSession_snd (reg : Registry) (sid : String)
    (event : String) (payload : JVal) {chans : List Channel}
    (hreg : regFind reg sid = some chans) :
    (broadcastToSession reg sid event payload).2
      = (chans.filter (fun c => c.writeOk)).map
          (fun c => (c.cid, (⟨event, payload⟩ : SSEMsg))) := by
  cases he : (chans.filter (fun c => c.writeOk)).isEmpty <;>
    simp [broadcastToSession, hreg, deliverAll_eq, he]

/-! ## Claim theorems -/

/-- C1: for every session whose current status is `error` and whose
`retryCount` is already 3, a retry request for that session is rejected with
`MAX_RETRIES_EXCEEDED` (HTTP 400); the store is untouched, so the session's
`retryCount` remains 3 and its status remains `error`, and no retry event is
broadcast. -/
theorem retry_ceiling_rejected (store : Store) (sid : String) (now : Nat)
    (s : Session) (hs : getSession store (some sid) now = some s)
    (herr : s.status = "error") (hrc : s.retryCount = 3) :
    (retryRoute store sid now).1 = ⟨400, some "MAX_RETRIES_EXCEEDED"⟩ ∧
    (retryRoute store sid now).2.1 = store ∧
    (retryRoute store sid now).2.2 = [] ∧
    getSession (retryRoute store sid now).2.1 (some sid) now = some s := by
  obtain ⟨hid, -⟩ := getSession_some_elim hs
  simp [retryRoute, hid, hs, herr, hrc]

/-- Witness for C1: a concrete `error` session with `retryCount = 3`. -/
theorem retry_ceiling_rejected_witness :
    getSession demoStoreErr3 (some "s1") 5 = some demoErrSess3 ∧
    ((retryRoute demoStoreErr3 "s1" 5).1 = ⟨400, some "MAX_RETRIES_EXCEEDED"⟩ ∧
     (retryRoute demoStoreErr3 "s1" 5).2.1 = demoStoreErr3 ∧
     (retryRoute demoStoreErr3 "s1" 5).2.2 = [] ∧
     getSession (retryRoute demoStoreErr3 "s1" 5).2.1 (some "s1") 5
        = some demoErrSess3) :=
  ⟨rfl, retry_ceiling_rejected demoStoreErr3 "s1" 5 demoErrSess3 rfl rfl rfl⟩

/-- C2: for every existing, non-expired session whose status is anything
other than `error`, a retry request is rejected with `INVALID_SESSION_STATE`
(HTTP 400); the store is untouched, so the session's `retryCount` and status
are left unchanged, and no retry event is broadcast. -/
theorem retry_requires_error_state (store : Store) (sid : String) (now : Nat)
    (s : Session) (hs : getSession store (some sid) now = some s)
    (hne : s.status ≠ "error") :
    (retryRoute store sid now).1 = ⟨400, some "INVALID_SESSION_STATE"⟩ ∧
    (retryRoute store sid now).2.1 = store ∧
    (retryRoute store sid now).2.2 = [] ∧
    getSession (retryRoute store sid now).2.1 (some sid) now = some s := by
  obtain ⟨hid, -⟩ := getSession_some_elim hs
  simp [retryRoute, hid, hs, hne]

/-- Witness for C2: a concrete session still in status `created`. -/
theorem retry_requires_error_state_witness :
    getSession demoStoreCreated (some "s2") 5 = some demoCreatedSess ∧
    ((retryRoute demoStoreCreated "s2" 5).1 = ⟨400, some "INVALID_SESSION_STATE"⟩ ∧
     (retryRoute demoStoreCreated "s2" 5).2.1 = demoStoreCreated ∧
     (retryRoute demoStoreCreated "s2" 5).2.2 = [] ∧
     getSession (retryRoute demoStoreCreated "s2" 5).2.1 (some "s2") 5
        = some demoCreatedSess) :=
  ⟨rfl, retry_requires_error_state demoStoreCreated "s2" 5 demoCreatedSess rfl
    (by simp [demoCreatedSess])⟩

/-- C3 counterexample: the claimed invariant "`retryCount` never exceeds 3
under any operation" fails.  Starting from a freshly created session,
a single `broadcastError` call whose options carry `retryCount: 10` leaves
the session with `retryCount = 10`: the broadcaster writes the option's
value to the store unchecked. -/
theorem retry_cap_violated_by_broadcastError :
    ((getSession
        (broadcastError (createSession [] (fun s => s) "sess1" 0).1
          (some "sess1") (.inr "boom") { retryCount := some 10 } 1).1
        (some "sess1") 1).map Session.retryCount) = some 10 := by
  rfl

/-- C3 amended: the retry-count ceiling is enforced only by the retry
endpoint (the calling layer), not by the broadcaster or the store: the retry
route never raises any session's `retryCount` above 3 — if every session in
the store satisfies `retryCount ≤ 3` before a retry request, every session
still does afterwards. -/
theorem retry_route_preserves_cap (store : Store) (sid : String) (now : Nat)
    (hcap : capOK store = true) :
    capOK (retryRoute store sid now).2.1 = true := by
  by_cases hid : sid = ""
  · simpa [retryRoute, hid]
  · cases hg : getSession store (some sid) now with
    | none => simpa [retryRoute, hid, hg]
    | some s =>
        by_cases hst : s.status = "error"
        · by_cases hrc : s.retryCount + 1 > 3
          · simpa [retryRoute, hid, hg, hst, hrc]
          · have hle : s.retryCount + 1 ≤ 3 := Nat.not_lt.mp hrc
            simp [retryRoute, broadcastRetryStarted, hid, hg, hst, hrc]
            exact capOK_updateSession
              (capOK_updateSession hcap (fun t => by simpa using hle))
              (fun t => by simpa using hle)
        · simpa [retryRoute, hid, hg, hst]

/-- Witness for the amended C3: a retry request against a concrete `error`
session with `retryCount = 2` keeps every stored `retryCount` at most 3. -/
theorem retry_route_preserves_cap_witness :
    capOK demoStoreErr2 = true ∧
    capOK (retryRoute demoStoreErr2 "s1" 5).2.1 = true :=
  ⟨rfl, retry_route_preserves_cap demoStoreErr2 "s1" 5 rfl⟩

/-- C4: for every session the store returns, `broadcastAnalysisStreaming`
leaves the session's status unchanged, sets `streamingContent` to its
previous value (empty string if absent) concatenated with the chunk, and the
broadcast payload's `content` field is exactly the chunk alone, not the
accumulated buffer. -/
theorem streaming_appends_chunk (store : Store) (sid : String) (now : Nat)
    (s : Session) (content : String) (metadata : JVal)
    (hs : getSession store (some sid) now = some s) :
    ((getSession
        (broadcastAnalysisStreaming store (some sid) content metadata now).1
        (some sid) now).map (fun t => (t.status, t.streamingContent)))
      = some (s.status, some (s.streamingContent.getD "" ++ content)) ∧
    (broadcastAnalysisStreaming store (some sid) content metadata now).2
      = [⟨some sid, "analysis.streaming", streamingEventData content metadata⟩] ∧
    jget (streamingEventData content metadata) "content" = .str content := by
  have hupd := getSession_after_update hs
    (fun t => { t with
        streamingContent := some (s.streamingContent.getD "" ++ content),
        lastStreamUpdate := some now }) (by simp)
  refine ⟨?_, by simp [broadcastAnalysisStreaming, hs], rfl⟩
  simp only [broadcastAnalysisStreaming, hs]
  rw [hupd]
  simp

/-- Witness for C4: appending chunk `"CD"` to a session that has already
accumulated `"AB"`. -/
theorem streaming_appends_chunk_witness :
    getSession demoStoreStreaming (some "s3") 5 = some demoStreamingSess ∧
    (((getSession
        (broadcastAnalysisStreaming demoStoreStreaming (some "s3") "CD"
          (.obj [("chunkIndex", .num 2)]) 5).1
        (some "s3") 5).map (fun t => (t.status, t.streamingContent)))
      = some (demoStreamingSess.status,
          some (demoStreamingSess.streamingContent.getD "" ++ "CD")) ∧
     (broadcastAnalysisStreaming demoStoreStreaming (some "s3") "CD"
        (.obj [("chunkIndex", .num 2)]) 5).2
      = [⟨some "s3", "analysis.streaming",
          streamingEventData "CD" (.obj [("chunkIndex", .num 2)])⟩] ∧
     jget (streamingEventData "CD" (.obj [("chunkIndex", .num 2)])) "content"
      = .str "CD") :=
  ⟨rfl, streaming_appends_chunk demoStoreStreaming "s3" 5 demoStreamingSess
    "CD" (.obj [("chunkIndex", .num 2)]) rfl⟩

/-- C5: for every existing session, `broadcastAnalysisCompleted` sets the
session's status to `completed`, stores the final feedback on the session,
clears `streamingContent` (sets it absent), and stamps `completedAt`. -/
theorem completion_finalizes_session (store : Store) (sid : String)
    (now : Nat) (s : Session) (feedback : JVal)
    (hs : getSession store (some sid) now = some s) :
    ((getSession
        (broadcastAnalysisCompleted store (some sid) feedback now).1
        (some sid) now).map
      (fun t => (t.status, t.feedback, t.streamingContent, t.completedAt)))
      = some ("completed", some feedback, none, some now) := by
  have h1 := getSession_after_update hs
    (fun t => { t with status := "completed" }) (by simp)
  have h2 := getSession_after_update h1
    (fun t => { t with feedback := some feedback, completedAt := some now,
                       streamingContent := none }) (by simp)
  simp only [broadcastAnalysisCompleted, updateStatus]
  rw [h2]
  simp

/-- Witness for C5: completing a concrete mid-stream session clears its
accumulated content and stores the feedback. -/
theorem completion_finalizes_session_witness :
    getSession demoStoreStreaming (some "s3") 5 = some demoStreamingSess ∧
    ((getSession
        (broadcastAnalysisCompleted demoStoreStreaming (some "s3")
          (.obj [("clarity", .num 8)]) 5).1
        (some "s3") 5).map
      (fun t => (t.status, t.feedback, t.streamingContent, t.completedAt)))
      = some ("completed", some (.obj [("clarity", .num 8)]), none, some 5) :=
  ⟨rfl, completion_finalizes_session demoStoreStreaming "s3" 5
    demoStreamingSess (.obj [("clarity", .num 8)]) rfl⟩

/-- C10: for every existing session, `broadcastError` sets the session's
`retryCount` to `options.retryCount` when provided and to 0 when omitted
(`options.retryCount.getD 0`), so an error broadcast that omits
`options.retryCount` resets the previously accumulated count to 0 rather
than preserving it; the status becomes `error`. -/
theorem error_event_sets_retrycount (store : Store) (sid : String)
    (now : Nat) (s : Session) (error : Sum JsError String)
    (options : ErrOptions) (hs : getSession store (some sid) now = some s) :
    ((getSession (broadcastError store (some sid) error options now).1
        (some sid) now).map (fun t => (t.status, t.retryCount)))
      = some ("error", options.retryCount.getD 0) ∧
    jsNumOr options.retryCount 0 = options.retryCount.getD 0 := by
  have hnum : jsNumOr options.retryCount 0 = options.retryCount.getD 0 := by
    cases h : options.retryCount with
    | none => rfl
    | some n => cases n <;> simp [jsNumOr]
  refine ⟨?_, hnum⟩
  have h1 := getSession_after_update hs
    (fun t => { t with status := "error" }) (by simp)
  have h2 := getSession_after_update h1
    (fun t => { t with
        lastError := some (match error with | .inl e => e.message | .inr m => m),
        errorCode := some (jsStrOr
          (match error with | .inl e => e.code | .inr _ => none)
          (jsStrOr options.code "UNKNOWN_ERROR")),
        retryCount := jsNumOr options.retryCount 0 }) (by simp)
  simp only [broadcastError, updateStatus]
  rw [h2]
  simp [hnum]

/-- Witness for C10: an error broadcast omitting `options.retryCount`
against a session with `retryCount = 2` resets the count to 0. -/
theorem error_event_sets_retrycount_witness :
    getSession demoStoreErr2 (some "s1") 5 = some demoErrSess2 ∧
    (((getSession
        (broadcastError demoStoreErr2 (some "s1") (.inr "boom2")
          { stage := some "analysis" } 5).1
        (some "s1") 5).map (fun t => (t.status, t.retryCount)))
      = some ("error", (0 : Nat)) ∧
     jsNumOr none 0 = (0 : Nat)) := by
  refine ⟨rfl, ?_⟩
  have h := error_event_sets_retrycount demoStoreErr2 "s1" 5 demoErrSess2
    (.inr "boom2") { stage := some "analysis" } rfl
  simpa using h

/-- C6: every Event Broadcaster lifecycle method, for every `sessionId`
argument — `null` (`none`), the empty string, or an id with no stored or
live session — completes normally (each method is a total function of the
embedding, emitting its single broadcast; the store operations it calls
degrade gracefully instead of throwing) and changes no session state. -/
theorem broadcaster_resilient_to_missing_session (store : Store)
    (sid : Option String) (now : Nat)
    (fileInfo extractionResult metadata feedback : JVal) (content : String)
    (error : Sum JsError String) (options : ErrOptions) (rc : Nat)
    (stage : String) (hmiss : getSession store sid now = none) :
    ((broadcastUploadStarted store sid fileInfo now).1 = store ∧
     (broadcastUploadStarted store sid fileInfo now).2.length = 1) ∧
    ((broadcastUploadCompleted store sid fileInfo now).1 = store ∧
     (broadcastUploadCompleted store sid fileInfo now).2.length = 1) ∧
    ((broadcastExtractionStarted store sid now).1 = store ∧
     (broadcastExtractionStarted store sid now).2.length = 1) ∧
    ((broadcastExtractionCompleted store sid extractionResult now).1 = store ∧
     (broadcastExtractionCompleted store sid extractionResult now).2.length = 1) ∧
    ((broadcastAnalysisStarted store sid now).1 = store ∧
     (broadcastAnalysisStarted store sid now).2.length = 1) ∧
    ((broadcastAnalysisStreaming store sid content metadata now).1 = store ∧
     (broadcastAnalysisStreaming store sid content metadata now).2.length = 1) ∧
    ((broadcastAnalysisCompleted store sid feedback now).1 = store ∧
     (broadcastAnalysisCompleted store sid feedback now).2.length = 1) ∧
    ((broadcastError store sid error options now).1 = store ∧
     (broadcastError store sid error options now).2.length = 1) ∧
    ((broadcastRetryStarted store sid rc stage now).1 = store ∧
     (broadcastRetryStarted store sid rc stage now).2.length = 1) := by
  have hupd : ∀ patch : Session → Session,
      updateSession store sid patch now = (store, false) :=
    fun p => updateSession_missing hmiss p
  refine ⟨?_, ?_, ?_, ?_, ?_, ?_, ?_, ?_, ?_⟩ <;>
    simp [broadcastUploadStarted, broadcastUploadCompleted,
      broadcastExtractionStarted, broadcastExtractionCompleted,
      broadcastAnalysisStarted, broadcastAnalysisStreaming,
      broadcastAnalysisCompleted, broadcastError, broadcastRetryStarted,
      updateStatus, hupd, hmiss]

/-- Witness for C6: all nine methods called with a `null` session id against
an empty store leave the store empty and emit their single broadcast. -/
theorem broadcaster_resilient_witness :
    getSession ([] : Store) none 0 = none ∧
    (((broadcastUploadStarted [] none .null 0).1 = [] ∧
      (broadcastUploadStarted [] none .null 0).2.length = 1) ∧
     ((broadcastUploadCompleted [] none .null 0).1 = [] ∧
      (broadcastUploadCompleted [] none .null 0).2.length = 1) ∧
     ((broadcastExtractionStarted [] none 0).1 = [] ∧
      (broadcastExtractionStarted [] none 0).2.length = 1) ∧
     ((broadcastExtractionCompleted [] none .null 0).1 = [] ∧
      (broadcastExtractionCompleted [] none .null 0).2.length = 1) ∧
     ((broadcastAnalysisStarted [] none 0).1 = [] ∧
      (broadcastAnalysisStarted [] none 0).2.length = 1) ∧
     ((broadcastAnalysisStreaming [] none "x" .null 0).1 = [] ∧
      (broadcastAnalysisStreaming [] none "x" .null 0).2.length = 1) ∧
     ((broadcastAnalysisCompleted [] none .null 0).1 = [] ∧
      (broadcastAnalysisCompleted [] none .null 0).2.length = 1) ∧
     ((broadcastError [] none (.inr "e") {} 0).1 = [] ∧
      (broadcastError [] none (.inr "e") {} 0).2.length = 1) ∧
     ((broadcastRetryStarted [] none 1 "analysis" 0).1 = [] ∧
      (broadcastRetryStarted [] none 1 "analysis" 0).2.length = 1)) :=
  ⟨rfl, broadcaster_resilient_to_missing_session [] none 0 .null .null .null
    .null "x" (.inr "e") {} 1 "analysis" rfl⟩

/-- C8: broadcasting one event to a session delivers the identical message
(the same event name and payload, formatted once) to every registered
channel whose write succeeds; a failing channel does not prevent delivery to
the others and is removed from the registry (the key is dropped when no
channel survives).  The registry is assumed key-duplicate-free, as `Map`
keys are. -/
theorem fanout_failure_isolated (reg : Registry) (sid : String)
    (chans : List Channel) (event : String) (payload : JVal)
    (hreg : regFind reg sid = some chans)
    (hnd : (reg.map Prod.fst).Nodup) :
    (broadcastToSession reg sid event payload).2
      = (chans.filter (fun c => c.writeOk)).map
          (fun c => (c.cid, (⟨event, payload⟩ : SSEMsg))) ∧
    regFind (broadcastToSession reg sid event payload).1 sid
      = (if (chans.filter (fun c => c.writeOk)).isEmpty then none
         else some (chans.filter (fun c => c.writeOk))) := by
  cases he : (chans.filter (fun c => c.writeOk)).isEmpty <;>
    simp [broadcastToSession, hreg, deliverAll_eq, he,
      regFind_regRemove_self hnd, regFind_regSet_self]

/-- Witness for C8: a session with three live connections, the second of
which fails on write — channels 1 and 3 receive the identical message and
channel 2 is dropped from the registry. -/
theorem fanout_failure_isolated_witness :
    regFind demoRegistry "s4" = some demoChans ∧
    ((broadcastToSession demoRegistry "s4" "analysis.completed" .null).2
      = (demoChans.filter (fun c => c.writeOk)).map
          (fun c => (c.cid, (⟨"analysis.completed", .null⟩ : SSEMsg))) ∧
     regFind (broadcastToSession demoRegistry "s4" "analysis.completed"
        .null).1 "s4"
      = (if (demoChans.filter (fun c => c.writeOk)).isEmpty then none
         else some (demoChans.filter (fun c => c.writeOk)))) :=
  ⟨rfl, fanout_failure_isolated demoRegistry "s4" demoChans
    "analysis.completed" .null rfl (by decide)⟩

/-- C7: a successful subscription to an existing, non-expired session
immediately replays the current snapshot to the newly connected channel:
an `analysis.completed` event carrying the stored feedback when the session
is `completed` with stored (truthy) feedback, and a `session.status` event
carrying the current status otherwise — within the subscription handler
itself, before any subsequent broadcast. -/
theorem snapshot_replay_on_subscribe (store : Store) (reg : Registry)
    (sid origin : String) (channel : Channel) (now : Nat) (s : Session)
    (hs : getSession store (some sid) now = some s)
    (horig : allowedOrigins.contains origin = true)
    (hch : channel.handshakeOk = true) (hw : channel.writeOk = true) :
    (subscribeRoute store reg sid origin channel now).outcome = .connected ∧
    ((s.status = "completed" && optTruthy s.feedback) = true →
      (channel.cid,
        (⟨"analysis.completed", completedSnapshotData s now⟩ : SSEMsg))
        ∈ (subscribeRoute store reg sid origin channel now).deliveries ∧
      jget (completedSnapshotData s now) "feedback" = s.feedback.getD .null) ∧
    ((s.status = "completed" && optTruthy s.feedback) = false →
      (channel.cid, (⟨"session.status", statusSnapshotData s⟩ : SSEMsg))
        ∈ (subscribeRoute store reg sid origin channel now).deliveries ∧
      jget (statusSnapshotData s) "status" = .str s.status) := by
  obtain ⟨hid, -⟩ := getSession_some_elim hs
  have horig' : origin ∈ allowedOrigins := by simpa using horig
  have hchan : channel ∈ ((regFind reg sid).getD []) ++ [channel] :=
    List.mem_append_right _ (List.mem_singleton_self channel)
  have hcompl := broadcastToSession_snd
    (regSet reg sid (((regFind reg sid).getD []) ++ [channel])) sid
    "analysis.completed" (completedSnapshotData s now)
    (regFind_regSet_self _ _ _)
  have hstat := broadcastToSession_snd
    (regSet reg sid (((regFind reg sid).getD []) ++ [channel])) sid
    "session.status" (statusSnapshotData s)
    (regFind_regSet_self _ _ _)
  by_cases hcond : (s.status = "completed" && optTruthy s.feedback) = true
  · refine ⟨?_, fun _ => ⟨?_, rfl⟩,
      fun hfalse => absurd hcond (by simp [hfalse])⟩
    · simp [subscribeRoute, horig', hid, hs, createConnection, hch, hcond]
    · simp [subscribeRoute, horig', hid, hs, createConnection, hch, hcond,
        hcompl]
      exact Or.inr ⟨channel, ⟨rfl, hw⟩, rfl⟩
  · refine ⟨?_, fun htrue => absurd htrue hcond, fun _ => ⟨?_, rfl⟩⟩
    · simp [subscribeRoute, horig', hid, hs, createConnection, hch, hcond]
    · simp [subscribeRoute, horig', hid, hs, createConnection, hch, hcond,
        hstat]
      exact Or.inr ⟨channel, ⟨rfl, hw⟩, rfl⟩

/-- Witness for C7: subscribing to a concrete `completed` session with
stored feedback immediately delivers the `analysis.completed` snapshot to
the new channel. -/
theorem snapshot_replay_on_subscribe_witness :
    getSession demoStoreCompleted (some "s4") 5 = some demoCompletedSess ∧
    ((subscribeRoute demoStoreCompleted [] "s4" "http://localhost:5173"
        ⟨9, true, true⟩ 5).outcome = .connected ∧
     ((demoCompletedSess.status = "completed"
        && optTruthy demoCompletedSess.feedback) = true →
       ((9 : Nat),
         (⟨"analysis.completed",
            completedSnapshotData demoCompletedSess 5⟩ : SSEMsg))
         ∈ (subscribeRoute demoStoreCompleted [] "s4"
             "http://localhost:5173" ⟨9, true, true⟩ 5).deliveries ∧
       jget (completedSnapshotData demoCompletedSess 5) "feedback"
         = demoCompletedSess.feedback.getD .null) ∧
     ((demoCompletedSess.status = "completed"
        && optTruthy demoCompletedSess.feedback) = false →
       ((9 : Nat), (⟨"session.status",
            statusSnapshotData demoCompletedSess⟩ : SSEMsg))
         ∈ (subscribeRoute demoStoreCompleted [] "s4"
             "http://localhost:5173" ⟨9, true, true⟩ 5).deliveries ∧
       jget (statusSnapshotData demoCompletedSess) "status"
         = .str demoCompletedSess.status)) :=
  ⟨rfl, snapshot_replay_on_subscribe demoStoreCompleted [] "s4"
    "http://localhost:5173" ⟨9, true, true⟩ 5 demoCompletedSess rfl
    (by decide) rfl rfl⟩

/-- C9: a stored session whose `expiresAt` lies in the past, or is missing
entirely, is indistinguishable from a non-existent session: `getSession`
returns `none`, `sessionExists` returns `false`, and a subscription attempt
is rejected with "Session not found" — while the session stays physically in
the store (lazy expiry, no proactive deletion on read) and the registry is
untouched. -/
theorem expired_session_indistinguishable (store : Store) (reg : Registry)
    (sid origin : String) (channel : Channel) (now : Nat) (s : Session)
    (hfind : storeFind store sid = some s)
    (hexp : s.expiresAt = none ∨ ∃ e, s.expiresAt = some e ∧ e < now)
    (horig : allowedOrigins.contains origin = true) (hsid : sid ≠ "") :
    getSession store (some sid) now = none ∧
    sessionExists store (some sid) now = false ∧
    (subscribeRoute store reg sid origin channel now).outcome
      = .sseErr "Session not found" ∧
    (subscribeRoute store reg sid origin channel now).store = store ∧
    (subscribeRoute store reg sid origin channel now).registry = reg ∧
    storeFind (subscribeRoute store reg sid origin channel now).store sid
      = some s := by
  have horig' : origin ∈ allowedOrigins := by simpa using horig
  have hget : getSession store (some sid) now = none := by
    rcases hexp with h | ⟨e, he, hlt⟩
    · simp [getSession, hsid, hfind, h]
    · simp [getSession, hsid, hfind, he, hlt]
  refine ⟨hget, ?_, ?_, ?_, ?_, ?_⟩ <;>
    simp [sessionExists, subscribeRoute, horig', hsid, hget, hfind]

/-- Witness for C9: a session whose `expiresAt = 5` read at `now = 10`
behaves exactly like a missing session yet remains in the store. -/
theorem expired_session_indistinguishable_witness :
    storeFind demoStoreExpired "s5" = some demoExpiredSess ∧
    (getSession demoStoreExpired (some "s5") 10 = none ∧
     sessionExists demoStoreExpired (some "s5") 10 = false ∧
     (subscribeRoute demoStoreExpired [] "s5" "http://localhost:5173"
        ⟨1, true, true⟩ 10).outcome = .sseErr "Session not found" ∧
     (subscribeRoute demoStoreExpired [] "s5" "http://localhost:5173"
        ⟨1, true, true⟩ 10).store = demoStoreExpired ∧
     (subscribeRoute demoStoreExpired [] "s5" "http://localhost:5173"
        ⟨1, true, true⟩ 10).registry = [] ∧
     storeFind (subscribeRoute demoStoreExpired [] "s5"
        "http://localhost:5173" ⟨1, true, true⟩ 10).store "s5"
      = some demoExpiredSess) :=
  ⟨rfl, expired_session_indistinguishable demoStoreExpired [] "s5"
    "http://localhost:5173" ⟨1, true, true⟩ 10 demoExpiredSess rfl
    (Or.inr ⟨5, rfl, by decide⟩) (by decide) (by decide)⟩

end ResumeAnalyzer
